import Mathlib

/-!
Verification of the Nebula provisioner (`authority/provisioner/nebula.go`):
a shallow embedding of its token-authorization routine, sign-option
pipeline builders and identity validators, with theorems about the
behaviours the specification describes.

External collaborators (JOSE parsing/signature verification, base64,
nebula certificate unmarshalling and chain verification, template
rendering, the clock) are modelled as an explicit environment of
functions supplied to the embedded operations, mirroring how the Go code
calls out to `jose`, `base64`, `cert` and `x509util`.
-/

namespace NebulaProv

/-- Error values produced by the `errs` package as the code uses them:
`errs.Unauthorized`, `errs.Forbidden`, `errs.InternalServer`, each with a
message. -/
inductive Err where
  | unauthorized (msg : String)
  | forbidden (msg : String)
  | internalServer (msg : String)
deriving DecidableEq, Repr

deriving instance DecidableEq for Except

/-- A Go `net.IP` value: a byte slice (4 bytes for IPv4, 16 for IPv6). -/
structure GoIP where
  bytes : List Nat
deriving DecidableEq, Repr

/-- The 12 leading bytes Go uses for IPv4-in-IPv6 addresses. -/
def v4InV6Lead : List Nat := [0, 0, 0, 0, 0, 0, 0, 0, 0, 0, 255, 255]

/-- `IP.To4`-style normalization: a 16-byte IPv4-mapped address is reduced
to its 4-byte form, everything else is left as-is (models the Go
`net` package). -/
def GoIP.normalize (a : GoIP) : List Nat :=
  if a.bytes.length = 16 && a.bytes.take 12 = v4InV6Lead then
    a.bytes.drop 12
  else
    a.bytes

/-- `net.IP.Equal`: equality of IPs up to the IPv4-in-IPv6 normalization
(models the Go `net` package). -/
def GoIP.equal (a b : GoIP) : Bool :=
  a.normalize = b.normalize

/-- Split a character list at every occurrence of the separator. -/
def splitOnChar (sep : Char) : List Char → List (List Char)
  | [] => [[]]
  | x :: xs =>
    let rest := splitOnChar sep xs
    if x = sep then [] :: rest
    else
      match rest with
      | [] => [[x]]
      | h :: t => (x :: h) :: t

/-- The value of a decimal digit, if the character is one. -/
def decDigit? (c : Char) : Option Nat :=
  if 48 ≤ c.toNat && c.toNat ≤ 57 then some (c.toNat - 48) else none

/-- Accumulate a decimal number over a character list; `none` on any
non-digit. -/
def decNatAux : List Char → Nat → Option Nat
  | [], acc => some acc
  | c :: cs, acc =>
    match decDigit? c with
    | some d => decNatAux cs (acc * 10 + d)
    | none => none

/-- One dotted-quad component: a non-empty digit string below 256
(models the Go `net.ParseIP` IPv4 path). -/
def parseIPv4Part (s : List Char) : Option Nat :=
  match s with
  | [] => none
  | _ =>
    match decNatAux s 0 with
    | some n => if n < 256 then some n else none
    | none => none

/-- `net.ParseIP` restricted to dotted-quad IPv4 strings; other strings
(including IPv6 literals, which no claim exercises) yield `none`
(models the Go `net` package). -/
def parseIP (s : String) : Option GoIP :=
  match (splitOnChar '.' s.toList).mapM parseIPv4Part with
  | some parts => if parts.length = 4 then some ⟨parts⟩ else none
  | none => none

/-- Does a character sequence occur inside another (contiguously)? -/
def hasSubSeq (pat : List Char) : List Char → Bool
  | [] => pat.isEmpty
  | c :: rest => pat.isPrefixOf (c :: rest) || hasSubSeq pat rest

/-- `net.IP.String` for 4-byte (or IPv4-mapped) addresses; other shapes
render a placeholder (models the Go `net` package; claims only use
IPv4). -/
def GoIP.render (a : GoIP) : String :=
  match a.normalize with
  | [x, y, z, w] =>
      Nat.repr x ++ "." ++ Nat.repr y ++ "." ++ Nat.repr z ++ "." ++ Nat.repr w
  | _ => "?"

/-- A Go `net.IPNet`: a base IP plus a mask. -/
structure IPNet where
  ip : GoIP
  mask : List Nat
deriving DecidableEq, Repr

/-- `net.IPNet.Contains`: the candidate address, masked, equals the
network's base address, masked (models the Go `net` package). -/
def IPNet.contains (n : IPNet) (a : GoIP) : Bool :=
  let ab := a.normalize
  let nb := n.ip.normalize
  ab.length = nb.length && ab.length = n.mask.length &&
    ((ab.zip nb).zip n.mask).all fun x => x.1.1 &&& x.2 = x.1.2 &&& x.2

/-- The fields of a nebula certificate the provisioner reads
(`cert.NebulaCertificate.Details`). Times are seconds. -/
structure NebulaCertDetails where
  Name : String
  Ips : List IPNet
  IsCA : Bool
  PublicKey : List Nat
  NotBefore : Int
  NotAfter : Int
deriving DecidableEq, Repr

/-- A nebula certificate (`cert.NebulaCertificate`). -/
structure NebulaCertificate where
  Details : NebulaCertDetails
deriving DecidableEq, Repr

/-- The CA pool built from the provisioner roots (`cert.NebulaCAPool`);
its internals are opaque to this file. -/
structure CAPool where
  roots : List Nat
deriving DecidableEq, Repr

/-- A `provisioner.TimeDuration` (external `go.step.sm/crypto` type): a
zero value, an absolute time, or a duration relative to a reference
time. -/
inductive TimeDuration where
  | zero
  | absolute (t : Int)
  | relative (d : Int)
deriving DecidableEq, Repr

/-- `TimeDuration.IsZero` (models the external type). -/
def TimeDuration.isZero : TimeDuration → Bool
  | .zero => true
  | _ => false

/-- `TimeDuration.RelativeTime(t)`: an absolute value stands on its own,
a relative one is anchored at `t` (models the external type; the Unix
conversion in the caller is the identity since times are already in
seconds here). -/
def TimeDuration.relativeTime (td : TimeDuration) (t : Int) : Int :=
  match td with
  | .zero => 0
  | .absolute a => a
  | .relative d => t + d

/-- `provisioner.SignSSHOptions`, the fields the nebula provisioner
reads. -/
structure SignSSHOptions where
  CertType : String
  KeyID : String
  Principals : List String
  ValidAfter : TimeDuration
  ValidBefore : TimeDuration
deriving DecidableEq, Repr

/-- The nested step claims object (`stepPayload`), of which the nebula
code reads the `SSH` member. In Go both levels are pointers, hence the
`Option` nesting. -/
structure StepClaims where
  SSH : Option SignSSHOptions
deriving DecidableEq, Repr

/-- `jwtPayload`: the registered JOSE claims plus the step-specific
extras the nebula code reads. `none` time fields model absent claims. -/
structure JwtPayload where
  Issuer : String
  Subject : String
  Audience : List String
  NotBefore : Option Int
  Expiry : Option Int
  SANs : List String
  Step : Option StepClaims
deriving DecidableEq, Repr

/-- Modelled from the spec: the duration-limit policy ("claimer") holds
min/max/default certificate validity windows for TLS and SSH plus
feature flags (SSH enabled, renewal disabled); its accessor methods
(`DefaultTLSCertDuration`, `IsSSHCAEnabled`, `IsDisableRenewal`, …) live
in repository code outside `src/` and are modelled as plain field
reads. -/
structure Claimer where
  defaultTLSCertDuration : Int
  minTLSCertDuration : Int
  maxTLSCertDuration : Int
  sshCAEnabled : Bool
  disableRenewal : Bool
deriving DecidableEq, Repr

/-- The per-operation audience sets (`provisioner.Audiences`), already
scoped to this provisioner by `Init`. -/
structure Audiences where
  Sign : List String
  Revoke : List String
  SSHSign : List String
deriving DecidableEq, Repr

/-- Modelled from the spec: provisioner template options; template
rendering is an external collaborator, so the model only records
whether rendering the configured template succeeds. -/
structure Options where
  templateValid : Bool
deriving DecidableEq, Repr

/-- The `Nebula` provisioner after `Init`: configuration fields plus the
derived claimer, CA pool and audiences. The `Type` field is spelled
`typ` (Lean reserves `Type`). -/
structure Nebula where
  ID : String
  typ : String
  Name : String
  Roots : List Nat
  Options : Option Options
  claimer : Claimer
  caPool : CAPool
  audiences : Audiences

/-- `Nebula.GetIDForToken`. -/
def Nebula.GetIDForToken (p : Nebula) : String :=
  "nebula/" ++ p.Name

/-- `Nebula.GetID`. -/
def Nebula.GetID (p : Nebula) : String :=
  if p.ID ≠ "" then p.ID else p.GetIDForToken

/-- `Nebula.GetName`. -/
def Nebula.GetName (p : Nebula) : String :=
  p.Name

/-- Template data assembled before rendering: subject/SANs seed, the
re-parsed token payload when available, and the verified nebula
certificate (models `x509util.CreateTemplateData` /
`sshutil.CreateTemplateData` plus the `SetToken` / `Set("Cert", …)`
calls). -/
structure TemplateData where
  subject : String
  sans : List String
  sshKeyID : Option String
  sshPrincipals : Option (List String)
  token : Option (List (String × String))
  cert : Option NebulaCertificate
deriving DecidableEq, Repr

/-- The sign options the nebula provisioner emits, each carrying exactly
the data the Go value closes over. -/
inductive SignOption where
  | templateOptions (data : TemplateData)
  | provisionerExtension (typ : String) (name : String) (credentialID : String)
  | profileLimitDuration (defaultDur : Int) (notBefore : Int) (notAfter : Int)
  | commonNameValidator (name : String)
  | nebulaSANsValidatorOpt (name : String) (ips : List IPNet)
  | defaultPublicKeyValidator
  | validityValidator (minDur : Int) (maxDur : Int)
  | sshCertOptionsValidator (opts : SignSSHOptions)
  | sshCertValidAfterModifier (t : Int)
  | sshCertValidBeforeModifier (t : Int)
  | sshTemplateOptions (data : TemplateData)
  | sshLimitDuration (claimer : Claimer) (notAfter : Int)
  | sshDefaultPublicKeyValidator
  | sshCertValidityValidator (claimer : Claimer)
  | sshCertDefaultValidator
deriving DecidableEq, Repr

/-- The verification key `authorizeToken` derives: the certificate's
public-key bytes read either as an Ed25519 verification key or as an
X25519 key. -/
inductive VKey where
  | ed25519 (bytes : List Nat)
  | x25519 (bytes : List Nat)
deriving DecidableEq, Repr

/-- The key-derivation step of `authorizeToken` (nebula.go lines
311–316). -/
def deriveKey (c : NebulaCertificate) : VKey :=
  if c.Details.IsCA then .ed25519 c.Details.PublicKey
  else .x25519 c.Details.PublicKey

/-- A JOSE header value: the `nbc` header is either a string or some
other JSON value. -/
inductive HeaderVal where
  | str (s : String)
  | nonString
deriving Repr

/-- A parsed JWS (`jose.JSONWebToken`) as the nebula code consumes it:
the `nbc` extra header of its first header, and signature verification
(`jose.Verify`) as a function from the candidate key to the decoded
payload — `some` exactly when the signature checks out under that
key. -/
structure ParsedJWT where
  nbcHeader : Option HeaderVal
  verify : VKey → Option JwtPayload

/-- The external collaborators of the provisioner, as a record of
functions: JOSE compact parsing, base64url decoding, nebula certificate
unmarshalling and chain verification, the unsafe payload re-parse used
for template data, and the injectable clock. -/
structure Env where
  parseSigned : String → Option ParsedJWT
  base64Decode : String → Option (List Nat)
  unmarshalCert : List Nat → Option NebulaCertificate
  verifyCert : NebulaCertificate → Int → CAPool → Bool
  unsafeParse : String → Option (List (String × String))
  now : Int

/-- Modelled from the spec: `matchesAudience` (repository code outside
`src/`) — at least one claim audience is present in the accepted
set. -/
def matchesAudience (asIn : List String) (accepted : List String) : Bool :=
  asIn.any fun a => accepted.contains a

/-- The issuer check inside `jose.Claims.ValidateWithLeeway`: the claim
issuer equals the expected issuer (models the external `jose`
package). -/
def issuerOk (claims : JwtPayload) (issuer : String) : Bool :=
  claims.Issuer = issuer

/-- The time-window check inside `jose.Claims.ValidateWithLeeway`: the
reference time lies within `[nbf − leeway, exp + leeway]` for whichever
bounds are present (models the external `jose` package). -/
def timeOk (claims : JwtPayload) (t leeway : Int) : Bool :=
  (match claims.NotBefore with
   | none => true
   | some nbf => nbf - leeway ≤ t) &&
  (match claims.Expiry with
   | none => true
   | some exp => t ≤ exp + leeway)

/-- `jose.Claims.ValidateWithLeeway` against `Expected{Issuer, Time}`
(models the external `jose` package: only the issuer and the validity
window are checked, the other expected fields being zero). -/
def validateWithLeeway (claims : JwtPayload) (issuer : String) (t leeway : Int) : Bool :=
  issuerOk claims issuer && timeOk claims t leeway

/-- The claim-validation tail of `authorizeToken` (nebula.go lines
326–340): standard claims with one minute of leeway, audience
intersection, non-empty subject. -/
def claimsStage (p : Nebula) (env : Env) (c : NebulaCertificate)
    (claims : JwtPayload) (audiences : List String) :
    Except Err (NebulaCertificate × JwtPayload) :=
  if ¬ validateWithLeeway claims p.Name env.now 60 then
    .error (.unauthorized "token is not valid: invalid claims")
  else if ¬ matchesAudience claims.Audience audiences then
    .error (.unauthorized "token is not valid: invalid claims")
  else if claims.Subject = "" then
    .error (.unauthorized "token is not valid: subject cannot be empty")
  else
    .ok (c, claims)

/-- The signature-verification step of `authorizeToken` (nebula.go lines
311–322): verify the token with the key derived from the certificate,
then validate the decoded claims. -/
def sigStage (p : Nebula) (env : Env) (c : NebulaCertificate)
    (jwt : ParsedJWT) (audiences : List String) :
    Except Err (NebulaCertificate × JwtPayload) :=
  match jwt.verify (deriveKey c) with
  | none => .error (.unauthorized "token is not valid: signature does not match")
  | some claims => claimsStage p env c claims audiences

/-- `Nebula.authorizeToken`: parse the token, extract and decode the
`nbc` header into a nebula certificate, verify the certificate against
the CA pool, then verify the signature and the claims. -/
def Nebula.authorizeToken (p : Nebula) (env : Env) (token : String)
    (audiences : List String) : Except Err (NebulaCertificate × JwtPayload) :=
  match env.parseSigned token with
  | none => .error (.unauthorized "failed to parse token")
  | some jwt =>
    match jwt.nbcHeader with
    | none => .error (.unauthorized "failed to parse token: nbc header is missing")
    | some .nonString => .error (.unauthorized "failed to parse token: nbc header is not valid")
    | some (.str s) =>
      match env.base64Decode s with
      | none => .error (.unauthorized "failed to parse token: nbc header is not valid")
      | some b =>
        match env.unmarshalCert b with
        | none => .error (.unauthorized "failed to parse nebula certificate: nbc header is not valid")
        | some c =>
          if ¬ env.verifyCert c env.now p.caPool then
            .error (.unauthorized "token is not valid: failed to unmarshal certificate")
          else
            sigStage p env c jwt audiences

/-- `Nebula.validateToken`. -/
def Nebula.validateToken (p : Nebula) (env : Env) (token : String)
    (audiences : List String) : Option Err :=
  match p.authorizeToken env token audiences with
  | .error e => some e
  | .ok _ => none

/-- The value of `provisioner.TypeNebula` as it is stamped into the
extension option. -/
def TypeNebula : String := "Nebula"

/-- `provisioner.SSHHostCert`, the string "host". -/
def SSHHostCert : String := "host"

/-- Modelled from the spec: `provisioner.TemplateOptions` (repository
code outside `src/`) — template rendering is an external collaborator,
so the model emits a template sign option carrying the data, failing
exactly when the configured template is invalid. -/
def TemplateOptions (o : Option Options) (data : TemplateData) : Except Err SignOption :=
  match o with
  | none => .ok (.templateOptions data)
  | some opts =>
    if opts.templateValid then .ok (.templateOptions data)
    else .error (.internalServer "error rendering template")

/-- Modelled from the spec: `provisioner.TemplateSSHOptions` (repository
code outside `src/`), the SSH counterpart of `TemplateOptions`. -/
def TemplateSSHOptions (o : Option Options) (data : TemplateData) : Except Err SignOption :=
  match o with
  | none => .ok (.sshTemplateOptions data)
  | some opts =>
    if opts.templateValid then .ok (.sshTemplateOptions data)
    else .error (.internalServer "error rendering template")

/-- The template data `AuthorizeSign` assembles:
`x509util.CreateTemplateData(claims.Subject, claims.SANs)`, the token
payload when `unsafeParseSigned` succeeds, and the nebula
certificate. -/
def buildX509TemplateData (env : Env) (token : String) (claims : JwtPayload)
    (cert : NebulaCertificate) : TemplateData :=
  let data : TemplateData :=
    { subject := claims.Subject, sans := claims.SANs, sshKeyID := none,
      sshPrincipals := none, token := none, cert := none }
  let data :=
    match env.unsafeParse token with
    | some v => { data with token := some v }
    | none => data
  { data with cert := some cert }

/-- `Nebula.AuthorizeSign` (nebula.go lines 111–146). -/
def Nebula.AuthorizeSign (p : Nebula) (env : Env) (token : String) :
    Except Err (List SignOption) :=
  match p.authorizeToken env token p.audiences.Sign with
  | .error e => .error e
  | .ok (cert, claims) =>
    let data := buildX509TemplateData env token claims cert
    match TemplateOptions p.Options data with
    | .error e => .error e
    | .ok templateOptions =>
      .ok [templateOptions,
           .provisionerExtension TypeNebula p.Name "",
           .profileLimitDuration p.claimer.defaultTLSCertDuration
             cert.Details.NotBefore cert.Details.NotAfter,
           .commonNameValidator claims.Subject,
           .nebulaSANsValidatorOpt cert.Details.Name cert.Details.Ips,
           .defaultPublicKeyValidator,
           .validityValidator p.claimer.minTLSCertDuration p.claimer.maxTLSCertDuration]

/-- An `x509.Certificate` as `AuthorizeRenew` receives it; the function
never reads it, so the model keeps only opaque bytes. -/
structure X509Certificate where
  raw : List Nat
deriving DecidableEq, Repr

/-- `Nebula.AuthorizeRenew` (nebula.go lines 241–246). -/
def Nebula.AuthorizeRenew (p : Nebula) (_cert : X509Certificate) : Option Err :=
  if p.claimer.disableRenewal then
    some (.unauthorized ("renew is disabled for nebula provisioner " ++ p.GetName))
  else
    none

/-- `Nebula.AuthorizeRevoke`. -/
def Nebula.AuthorizeRevoke (p : Nebula) (env : Env) (token : String) : Option Err :=
  p.validateToken env token p.audiences.Revoke

/-- `Nebula.AuthorizeSSHRevoke`. -/
def Nebula.AuthorizeSSHRevoke (p : Nebula) (env : Env) (token : String) : Option Err :=
  if ¬ p.claimer.sshCAEnabled then
    some (.unauthorized ("ssh is disabled for nebula provisioner " ++ p.Name))
  else
    match p.authorizeToken env token p.audiences.Revoke with
    | .error e => some e
    | .ok _ => none

/-- An SSH certificate value; the nebula provisioner never constructs
one, so the model keeps only opaque bytes. -/
structure SSHCertificate where
  raw : List Nat
deriving DecidableEq, Repr

/-- `Nebula.AuthorizeSSHRenew` (nebula.go lines 265–267): the pair
`(nil, errs.Unauthorized(...))`. -/
def Nebula.AuthorizeSSHRenew (_p : Nebula) (_token : String) :
    Option SSHCertificate × Option Err :=
  (none, some (.unauthorized "nebula provisioner does not support SSH renew"))

/-- `Nebula.AuthorizeSSHRekey` (nebula.go lines 270–272): the triple
`(nil, nil, errs.Unauthorized(...))`. -/
def Nebula.AuthorizeSSHRekey (_p : Nebula) (_token : String) :
    Option SSHCertificate × Option (List SignOption) × Option Err :=
  (none, none, some (.unauthorized "nebula provisioner does not support SSH rekey"))

/-- The fields of an `x509.CertificateRequest` the SAN validator
reads. -/
structure CertificateRequest where
  DNSNames : List String
  EmailAddresses : List String
  IPAddresses : List GoIP
  URIs : List String
deriving DecidableEq, Repr

/-- The four buckets `x509util.SplitSANs` produces. -/
structure SplitSANsResult where
  dnsNames : List String
  ips : List GoIP
  emails : List String
  uris : List String
deriving DecidableEq, Repr

/-- `x509util.SplitSANs` (models the external `x509util` package): each
name is classified as an IP when it parses as one, as a URI when it
carries a scheme, as an email when it contains an at-sign, and as a DNS
name otherwise. -/
def splitSANs (sans : List String) : SplitSANsResult :=
  sans.foldl
    (fun acc san =>
      match parseIP san with
      | some ip => { acc with ips := acc.ips ++ [ip] }
      | none =>
        if hasSubSeq [':', '/', '/'] san.toList then { acc with uris := acc.uris ++ [san] }
        else if hasSubSeq ['@'] san.toList then { acc with emails := acc.emails ++ [san] }
        else { acc with dnsNames := acc.dnsNames ++ [san] })
    ⟨[], [], [], []⟩

/-- Modelled from the spec: `dnsNamesValidator` (repository code outside
`src/`) — every requested DNS name must be among the allowed ones, else
the request is forbidden. -/
def dnsNamesValidatorValid (allowed : List String) (req : CertificateRequest) : Option Err :=
  if req.DNSNames.all fun n => allowed.contains n then none
  else some (.forbidden "certificate request does not contain the valid DNS names")

/-- Modelled from the spec: `emailAddressesValidator` (repository code
outside `src/`) — every requested email must be among the allowed ones,
else the request is forbidden. -/
def emailAddressesValidatorValid (allowed : List String) (req : CertificateRequest) : Option Err :=
  if req.EmailAddresses.all fun e => allowed.contains e then none
  else some (.forbidden "certificate request does not contain the valid email addresses")

/-- Modelled from the spec: `urisValidator` (repository code outside
`src/`) — every requested URI must be among the allowed ones, else the
request is forbidden. -/
def urisValidatorValid (allowed : List String) (req : CertificateRequest) : Option Err :=
  if req.URIs.all fun u => allowed.contains u then none
  else some (.forbidden "certificate request does not contain the valid URIs")

/-- The SAN validator value emitted by `AuthorizeSign`. -/
structure nebulaSANsValidator where
  Name : String
  IPs : List IPNet
deriving DecidableEq, Repr

/-- The Forbidden message of the SAN validator's IP branch (argument
interpolation of the requested and allowed values elided). -/
def sanIPsForbiddenMsg : String :=
  "certificate request does not contain the valid IP addresses"

/-- The per-IP test of the SAN validator (nebula.go lines 368–385): the
requested IP equals an IP parsed out of the name, or equals the base IP
of one of the validator's networks. -/
def sanIPOk (nameIPs : List GoIP) (vIPs : List IPNet) (ip : GoIP) : Bool :=
  nameIPs.any (fun ipInName => ip.equal ipInName) ||
    vIPs.any fun ipnet => ip.equal ipnet.ip

/-- The IP loop of the SAN validator: the first requested IP that
matches neither bucket yields Forbidden. -/
def checkSANIPs (nameIPs : List GoIP) (vIPs : List IPNet) : List GoIP → Option Err
  | [] => none
  | ip :: rest =>
    if sanIPOk nameIPs vIPs ip then checkSANIPs nameIPs vIPs rest
    else some (.forbidden sanIPsForbiddenMsg)

/-- `nebulaSANsValidator.Valid` (nebula.go lines 350–393). -/
def nebulaSANsValidator.Valid (v : nebulaSANsValidator) (req : CertificateRequest) : Option Err :=
  let s := splitSANs [v.Name]
  match (if req.DNSNames.length > 0 then dnsNamesValidatorValid s.dnsNames req else none) with
  | some e => some e
  | none =>
    match (if req.EmailAddresses.length > 0 then emailAddressesValidatorValid s.emails req else none) with
    | some e => some e
    | none =>
      match (if req.URIs.length > 0 then urisValidatorValid s.uris req else none) with
      | some e => some e
      | none =>
        if req.IPAddresses.length > 0 then checkSANIPs s.ips v.IPs req.IPAddresses
        else none

/-- The principal validator value used by `AuthorizeSSHSign`. -/
structure nebulaPrincipalsValidator where
  Name : String
  IPs : List IPNet
deriving DecidableEq, Repr

/-- The Forbidden message of the principal validator (argument
interpolation of the requested and allowed values elided). -/
def principalsForbiddenMsg : String :=
  "ssh certificate principals does contain a valid name or IP address"

/-- The per-principal test of `nebulaPrincipalsValidator.Valid`
(nebula.go lines 404–417): the principal equals the name, or parses as
an IP equal to the base IP of one of the networks. -/
def principalOk (v : nebulaPrincipalsValidator) (p : String) : Bool :=
  if p = v.Name then true
  else
    match parseIP p with
    | some ip => v.IPs.any fun ipnet => ip.equal ipnet.ip
    | none => false

/-- The principal loop: the first invalid principal yields
Forbidden. -/
def checkPrincipals (v : nebulaPrincipalsValidator) : List String → Option Err
  | [] => none
  | p :: rest =>
    if principalOk v p then checkPrincipals v rest
    else some (.forbidden principalsForbiddenMsg)

/-- `nebulaPrincipalsValidator.Valid` (nebula.go lines 402–427). -/
def nebulaPrincipalsValidator.Valid (v : nebulaPrincipalsValidator)
    (got : SignSSHOptions) : Option Err :=
  checkPrincipals v got.Principals

/-- The outcome of a Go call that can also crash: a value, a returned
error, or a runtime panic. -/
inductive Outcome (α : Type) where
  | ok (val : α)
  | err (e : Err)
  | panicked (msg : String)
deriving DecidableEq, Repr

/-- The message of a Go nil-pointer dereference panic. -/
def nilDerefMsg : String :=
  "runtime error: invalid memory address or nil pointer dereference"

/-- The template data `AuthorizeSSHSign` assembles:
`sshutil.CreateTemplateData(sshutil.HostCert, keyID, principals)`, the
token payload when `unsafeParseSigned` succeeds, and the nebula
certificate. -/
def buildSSHTemplateData (env : Env) (token : String) (keyID : String)
    (principals : List String) (cert : NebulaCertificate) : TemplateData :=
  let data : TemplateData :=
    { subject := "", sans := [], sshKeyID := some keyID,
      sshPrincipals := some principals, token := none, cert := none }
  let data :=
    match env.unsafeParse token with
    | some v => { data with token := some v }
    | none => data
  { data with cert := some cert }

/-- The common tail of `AuthorizeSSHSign` (nebula.go lines 215–237):
render the SSH template from the (possibly overridden) key-id and
principals, then append the duration limiter and the validators. -/
def finishSSH (p : Nebula) (env : Env) (token : String) (cert : NebulaCertificate)
    (keyID : String) (principals : List String) (signOptions : List SignOption) :
    Outcome (List SignOption) :=
  let data := buildSSHTemplateData env token keyID principals cert
  match TemplateSSHOptions p.Options data with
  | .error e => .err e
  | .ok templateOptions =>
    .ok (signOptions ++
      [templateOptions,
       .sshLimitDuration p.claimer cert.Details.NotAfter,
       .sshDefaultPublicKeyValidator,
       .sshCertValidityValidator p.claimer,
       .sshCertDefaultValidator])

/-- `Nebula.AuthorizeSSHSign` (nebula.go lines 150–238), with Go's
evaluation order of the condition `claims.Step != nil ||
claims.Step.SSH != nil` embedded faithfully: when `Step` is nil the
right disjunct dereferences the nil pointer, and when `Step` is non-nil
the branch is entered even if `Step.SSH` is nil, so `*opts`
dereferences a nil pointer inside the branch. -/
def Nebula.AuthorizeSSHSign (p : Nebula) (env : Env) (token : String) :
    Outcome (List SignOption) :=
  if ¬ p.claimer.sshCAEnabled then
    .err (.unauthorized ("ssh is disabled for nebula provisioner " ++ p.Name))
  else
    match p.authorizeToken env token p.audiences.SSHSign with
    | .error e => .err e
    | .ok (cert, claims) =>
      let keyID := claims.Subject
      let principals := cert.Details.Name :: cert.Details.Ips.map fun ipnet => ipnet.ip.render
      match claims.Step with
      | none => .panicked nilDerefMsg
      | some step =>
        match step.SSH with
        | none => .panicked nilDerefMsg
        | some opts =>
          let v : nebulaPrincipalsValidator := { Name := cert.Details.Name, IPs := cert.Details.Ips }
          match v.Valid opts with
          | some e => .err e
          | none =>
            if opts.CertType ≠ "" && opts.CertType ≠ SSHHostCert then
              .err (.forbidden "ssh certificate type does not match")
            else
              let signOptions : List SignOption :=
                [.sshCertOptionsValidator
                   { CertType := SSHHostCert, KeyID := claims.Subject,
                     Principals := [], ValidAfter := .zero, ValidBefore := .zero },
                 .sshCertOptionsValidator opts]
              let keyID := if opts.KeyID ≠ "" then opts.KeyID else keyID
              let principals := if opts.Principals.length > 0 then opts.Principals else principals
              let t := env.now
              let signOptions :=
                if ¬ opts.ValidAfter.isZero then
                  signOptions ++ [.sshCertValidAfterModifier (opts.ValidAfter.relativeTime t)]
                else signOptions
              let signOptions :=
                if ¬ opts.ValidBefore.isZero then
                  signOptions ++ [.sshCertValidBeforeModifier (opts.ValidBefore.relativeTime t)]
                else signOptions
              finishSSH p env token cert keyID principals signOptions

/-! ## Concrete fixture

A small provisioner/environment pair on which every stage of
authorization succeeds, used to instantiate the theorems below. -/

/-- A leaf (non-CA) nebula certificate named `node-7` holding the
network `10.0.0.7/32`. -/
def certW : NebulaCertificate :=
  { Details :=
    { Name := "node-7"
      Ips := [{ ip := ⟨[10, 0, 0, 7]⟩, mask := [255, 255, 255, 255] }]
      IsCA := false
      PublicKey := [7, 7]
      NotBefore := 0
      NotAfter := 1000 } }

/-- A claim payload issued by `edge1` for subject `node-7`, with no step
sub-claims. -/
def payloadW : JwtPayload :=
  { Issuer := "edge1", Subject := "node-7", Audience := ["aud-sign", "aud-ssh"]
    NotBefore := some 0, Expiry := some 1000, SANs := [], Step := none }

/-- A parsed token carrying `certW` in its `nbc` header whose signature
verifies exactly under the X25519 reading of `certW`'s public key. -/
def jwtW : ParsedJWT :=
  { nbcHeader := some (.str "certb64")
    verify := fun k => if k = .x25519 [7, 7] then some payloadW else none }

/-- The environment under which the compact string "tok" parses to
`jwtW` and the decode chain yields `certW`, verified at time 100. -/
def envW : Env :=
  { parseSigned := fun s => if s = "tok" then some jwtW else none
    base64Decode := fun s => if s = "certb64" then some [1, 2] else none
    unmarshalCert := fun b => if b = [1, 2] then some certW else none
    verifyCert := fun c _t _pool => decide (c = certW)
    unsafeParse := fun s => if s = "tok" then some [("iss", "edge1")] else none
    now := 100 }

/-- The provisioner `edge1` with SSH enabled, renewal enabled and TLS
bounds 5 minutes to 24 hours. -/
def provW : Nebula :=
  { ID := "", typ := "Nebula", Name := "edge1", Roots := [9]
    Options := none
    claimer :=
      { defaultTLSCertDuration := 86400, minTLSCertDuration := 300
        maxTLSCertDuration := 86400, sshCAEnabled := true, disableRenewal := false }
    caPool := ⟨[9]⟩
    audiences := { Sign := ["aud-sign"], Revoke := ["aud-revoke"], SSHSign := ["aud-ssh"] } }

/-- A second provisioner sharing `provW`'s ID and name but nothing
else. -/
def provW2 : Nebula :=
  { ID := "", typ := "other", Name := "edge1", Roots := []
    Options := some { templateValid := false }
    claimer :=
      { defaultTLSCertDuration := 1, minTLSCertDuration := 1
        maxTLSCertDuration := 1, sshCAEnabled := false, disableRenewal := true }
    caPool := ⟨[]⟩
    audiences := { Sign := [], Revoke := [], SSHSign := [] } }

/-! ## Theorems -/

/-- C10: `GetIDForToken` is the string `"nebula/"` concatenated with the
`Name` field; `GetID` returns the `ID` field when non-empty and the
`"nebula/"`-prefixed name otherwise; and both read nothing besides the
`ID` and `Name` fields. -/
theorem getID_spec (p : Nebula) :
    p.GetIDForToken = "nebula/" ++ p.Name ∧
    p.GetID = (if p.ID ≠ "" then p.ID else "nebula/" ++ p.Name) ∧
    ∀ q : Nebula, p.ID = q.ID → p.Name = q.Name →
      p.GetID = q.GetID ∧ p.GetIDForToken = q.GetIDForToken := by
  refine ⟨rfl, rfl, ?_⟩
  intro q h1 h2
  simp [Nebula.GetID, Nebula.GetIDForToken, h1, h2]

/-- Witness for C10, instantiated at two provisioners that agree only on
`ID` and `Name`. -/
theorem getID_spec_witness :
    provW.GetID = provW2.GetID ∧ provW.GetIDForToken = provW2.GetIDForToken :=
  (getID_spec provW).2.2 provW2 rfl rfl

/-- C7: `AuthorizeRenew` returns Unauthorized exactly when the claimer
flags renewal as disabled, returns `nil` exactly otherwise, and ignores
the certificate argument entirely. -/
theorem authorizeRenew_spec (p : Nebula) (cert : X509Certificate) :
    (p.AuthorizeRenew cert = none ↔ p.claimer.disableRenewal = false) ∧
    (p.AuthorizeRenew cert =
        some (.unauthorized ("renew is disabled for nebula provisioner " ++ p.GetName)) ↔
      p.claimer.disableRenewal = true) ∧
    ∀ cert2 : X509Certificate, p.AuthorizeRenew cert = p.AuthorizeRenew cert2 := by
  unfold Nebula.AuthorizeRenew
  cases h : p.claimer.disableRenewal <;> simp

/-- Witness for C7: with renewal enabled the call succeeds on a concrete
certificate. -/
theorem authorizeRenew_spec_witness :
    provW.AuthorizeRenew ⟨[1]⟩ = none :=
  (authorizeRenew_spec provW ⟨[1]⟩).1.mpr rfl

/-- C6: `AuthorizeSSHRenew` and `AuthorizeSSHRekey` return, on every
input, an Unauthorized "does not support" error with no certificate and
no sign options. -/
theorem sshRenewRekey_unsupported (p : Nebula) (token : String) :
    p.AuthorizeSSHRenew token =
      (none, some (.unauthorized "nebula provisioner does not support SSH renew")) ∧
    p.AuthorizeSSHRekey token =
      (none, none, some (.unauthorized "nebula provisioner does not support SSH rekey")) :=
  ⟨rfl, rfl⟩

/-- The per-principal test succeeds exactly when the principal is the
mesh name or parses as an IP equal to some network's base IP. -/
theorem principalOk_iff (v : nebulaPrincipalsValidator) (pr : String) :
    principalOk v pr = true ↔
      pr = v.Name ∨
        ∃ ip, parseIP pr = some ip ∧ ∃ ipnet ∈ v.IPs, ip.equal ipnet.ip = true := by
  unfold principalOk
  by_cases h : pr = v.Name
  · simp [h]
  · simp only [h, if_false]
    cases hp : parseIP pr <;> simp [hp, List.any_eq_true]

/-- The principal loop accepts exactly the lists whose members all pass
the per-principal test. -/
theorem checkPrincipals_none_iff (v : nebulaPrincipalsValidator) (l : List String) :
    checkPrincipals v l = none ↔ ∀ pr ∈ l, principalOk v pr = true := by
  induction l with
  | nil => simp [checkPrincipals]
  | cons p rest ih =>
    unfold checkPrincipals
    by_cases h : principalOk v p = true <;> simp [h, ih]

/-- The principal loop returns either `nil` or the Forbidden error. -/
theorem checkPrincipals_shape (v : nebulaPrincipalsValidator) (l : List String) :
    checkPrincipals v l = none ∨
      checkPrincipals v l = some (.forbidden principalsForbiddenMsg) := by
  induction l with
  | nil => exact .inl rfl
  | cons p rest ih =>
    unfold checkPrincipals
    by_cases h : principalOk v p = true <;> simp [h, ih]

/-- C5: the SSH principal validator accepts a request exactly when every
requested principal equals the mesh identity name or parses as an IP
address equal to one of the mesh certificate's IP networks' base
addresses, and any rejection is a Forbidden error (never
Unauthorized). -/
theorem principalsValidator_spec (v : nebulaPrincipalsValidator) (got : SignSSHOptions) :
    (v.Valid got = none ↔
      ∀ pr ∈ got.Principals,
        pr = v.Name ∨
          ∃ ip, parseIP pr = some ip ∧ ∃ ipnet ∈ v.IPs, ip.equal ipnet.ip = true) ∧
    (v.Valid got ≠ none → v.Valid got = some (.forbidden principalsForbiddenMsg)) := by
  constructor
  · rw [nebulaPrincipalsValidator.Valid, checkPrincipals_none_iff]
    exact forall₂_congr fun pr _ => principalOk_iff v pr
  · intro h
    rcases checkPrincipals_shape v got.Principals with h1 | h1
    · exact absurd h1 h
    · exact h1

/-- Witness for C5, at a principal list containing an entry that is
neither the name nor an IP of the validator: the result is the
Forbidden error. -/
theorem principalsValidator_spec_witness :
    nebulaPrincipalsValidator.Valid
        ⟨"node-7", [⟨⟨[10, 0, 0, 7]⟩, [255, 255, 255, 255]⟩]⟩
        ⟨"", "", ["node-9"], .zero, .zero⟩ =
      some (.forbidden principalsForbiddenMsg) :=
  (principalsValidator_spec
    ⟨"node-7", [⟨⟨[10, 0, 0, 7]⟩, [255, 255, 255, 255]⟩]⟩
    ⟨"", "", ["node-9"], .zero, .zero⟩).2 (by decide)

/-- C8: the SAN validator is a pure function of the validator's `Name`
and `IPs` fields and the request: identical inputs give identical
results. -/
theorem sansValidator_deterministic (v w : nebulaSANsValidator) (req : CertificateRequest)
    (h1 : v.Name = w.Name) (h2 : v.IPs = w.IPs) :
    v.Valid req = w.Valid req := by
  cases v
  cases w
  simp only at h1 h2
  subst h1
  subst h2
  rfl

/-- Witness for C8 at a concrete validator/request pair. -/
theorem sansValidator_deterministic_witness :
    nebulaSANsValidator.Valid ⟨"node-7", [⟨⟨[10, 0, 0, 7]⟩, [255, 255, 255, 255]⟩]⟩
        ⟨["node-7"], [], [⟨[10, 0, 0, 7]⟩], []⟩ =
      nebulaSANsValidator.Valid ⟨"node-7", [⟨⟨[10, 0, 0, 7]⟩, [255, 255, 255, 255]⟩]⟩
        ⟨["node-7"], [], [⟨[10, 0, 0, 7]⟩], []⟩ :=
  sansValidator_deterministic
    ⟨"node-7", [⟨⟨[10, 0, 0, 7]⟩, [255, 255, 255, 255]⟩]⟩
    ⟨"node-7", [⟨⟨[10, 0, 0, 7]⟩, [255, 255, 255, 255]⟩]⟩
    ⟨["node-7"], [], [⟨[10, 0, 0, 7]⟩], []⟩ rfl rfl

/-- If some requested IP fails the SAN IP test, the IP loop returns the
Forbidden error. -/
theorem checkSANIPs_some_of_bad (nameIPs : List GoIP) (vIPs : List IPNet)
    (l : List GoIP) (ip : GoIP) (hmem : ip ∈ l)
    (hbad : sanIPOk nameIPs vIPs ip = false) :
    checkSANIPs nameIPs vIPs l = some (.forbidden sanIPsForbiddenMsg) := by
  induction l with
  | nil => cases hmem
  | cons a rest ih =>
    unfold checkSANIPs
    rcases List.mem_cons.mp hmem with rfl | hmem2
    · simp [hbad]
    · by_cases h : sanIPOk nameIPs vIPs a = true <;> simp [h, ih hmem2]

/-- If some principal fails the per-principal test, the principal loop
returns the Forbidden error. -/
theorem checkPrincipals_some_of_bad (v : nebulaPrincipalsValidator)
    (l : List String) (pr : String) (hmem : pr ∈ l)
    (hbad : principalOk v pr = false) :
    checkPrincipals v l = some (.forbidden principalsForbiddenMsg) := by
  induction l with
  | nil => cases hmem
  | cons a rest ih =>
    unfold checkPrincipals
    rcases List.mem_cons.mp hmem with rfl | hmem2
    · simp [hbad]
    · by_cases h : principalOk v a = true <;> simp [h, ih hmem2]

/-- C9: in both validators an IP matches a mesh-certificate network
entry only by equality with the network's base address: a requested
address lying inside a network's CIDR range (`IPNet.contains`) but
different from every base address is rejected with Forbidden, both as
an X.509 SAN and as an SSH principal. -/
theorem baseIP_exact_match_only
    (name : String) (nets : List IPNet) (req : CertificateRequest)
    (ip : GoIP) (pr : String) (got : SignSSHOptions)
    (hdns : req.DNSNames = []) (hemail : req.EmailAddresses = []) (huri : req.URIs = [])
    (hmem : ip ∈ req.IPAddresses)
    (hnameips : (splitSANs [name]).ips = [])
    (hinside : ∃ n ∈ nets, n.contains ip = true)
    (hnotbase : ∀ n ∈ nets, ip.equal n.ip = false)
    (hpr : parseIP pr = some ip) (hprname : pr ≠ name)
    (hgot : pr ∈ got.Principals) :
    nebulaSANsValidator.Valid ⟨name, nets⟩ req = some (.forbidden sanIPsForbiddenMsg) ∧
    nebulaPrincipalsValidator.Valid ⟨name, nets⟩ got =
      some (.forbidden principalsForbiddenMsg) := by
  have hbadSAN : sanIPOk (splitSANs [name]).ips nets ip = false := by
    rw [hnameips]
    unfold sanIPOk
    simp only [List.any_nil, Bool.false_or, List.any_eq_false]
    intro n hn
    simp [hnotbase n hn]
  constructor
  · unfold nebulaSANsValidator.Valid
    rw [hdns, hemail, huri]
    have hlen : req.IPAddresses.length > 0 := List.length_pos.mpr (List.ne_nil_of_mem hmem)
    simp only [List.length_nil, gt_iff_lt, Nat.lt_irrefl, if_false, hlen, if_true]
    exact checkSANIPs_some_of_bad _ _ _ ip hmem hbadSAN
  · unfold nebulaPrincipalsValidator.Valid
    apply checkPrincipals_some_of_bad _ _ pr hgot
    unfold principalOk
    simp only [hprname, if_false, hpr]
    simp only [List.any_eq_false]
    intro n hn
    simp [hnotbase n hn]

/-- Witness for C9: the address 10.0.0.7 lies inside 10.0.0.0/24 but is
not its base address, so both validators reject it. -/
theorem baseIP_exact_match_only_witness :
    nebulaSANsValidator.Valid ⟨"node-7", [⟨⟨[10, 0, 0, 0]⟩, [255, 255, 255, 0]⟩]⟩
        ⟨[], [], [⟨[10, 0, 0, 7]⟩], []⟩ =
      some (.forbidden sanIPsForbiddenMsg) ∧
    nebulaPrincipalsValidator.Valid ⟨"node-7", [⟨⟨[10, 0, 0, 0]⟩, [255, 255, 255, 0]⟩]⟩
        ⟨"", "", ["10.0.0.7"], .zero, .zero⟩ =
      some (.forbidden principalsForbiddenMsg) :=
  baseIP_exact_match_only "node-7" [⟨⟨[10, 0, 0, 0]⟩, [255, 255, 255, 0]⟩]
    ⟨[], [], [⟨[10, 0, 0, 7]⟩], []⟩ ⟨[10, 0, 0, 7]⟩ "10.0.0.7"
    ⟨"", "", ["10.0.0.7"], .zero, .zero⟩
    rfl rfl rfl (by decide) (by decide) (by decide) (by decide) (by decide)
    (by decide) (by decide)

/-- Shared reduction: once the token parses, the `nbc` header decodes to
a certificate and the certificate verifies against the pool,
`authorizeToken` is the signature-verification stage. -/
theorem authorizeToken_reaches_sig (p : Nebula) (env : Env) (token : String)
    (audiences : List String) (jwt : ParsedJWT) (s : String) (b : List Nat)
    (c : NebulaCertificate)
    (h1 : env.parseSigned token = some jwt)
    (h2 : jwt.nbcHeader = some (.str s))
    (h3 : env.base64Decode s = some b)
    (h4 : env.unmarshalCert b = some c)
    (h5 : env.verifyCert c env.now p.caPool = true) :
    p.authorizeToken env token audiences = sigStage p env c jwt audiences := by
  unfold Nebula.authorizeToken
  simp only [h1, h2, h3, h4, h5]
  simp

/-- Shared reduction: when additionally the signature verifies under the
derived key, `authorizeToken` is the claim-validation stage on the
decoded claims. -/
theorem authorizeToken_reaches_claims (p : Nebula) (env : Env) (token : String)
    (audiences : List String) (jwt : ParsedJWT) (s : String) (b : List Nat)
    (c : NebulaCertificate) (claims : JwtPayload)
    (h1 : env.parseSigned token = some jwt)
    (h2 : jwt.nbcHeader = some (.str s))
    (h3 : env.base64Decode s = some b)
    (h4 : env.unmarshalCert b = some c)
    (h5 : env.verifyCert c env.now p.caPool = true)
    (h6 : jwt.verify (deriveKey c) = some claims) :
    p.authorizeToken env token audiences = claimsStage p env c claims audiences := by
  rw [authorizeToken_reaches_sig p env token audiences jwt s b c h1 h2 h3 h4 h5]
  unfold sigStage
  rw [h6]

/-- C3: for every mesh certificate extracted from the token, the token
signature is verified with the key derived from the certificate's
public-key bytes: an Ed25519 verification key when the certificate is a
CA, an X25519 key otherwise. -/
theorem keyDerivation_spec (p : Nebula) (env : Env) (token : String)
    (audiences : List String) (jwt : ParsedJWT) (s : String) (b : List Nat)
    (c : NebulaCertificate)
    (h1 : env.parseSigned token = some jwt)
    (h2 : jwt.nbcHeader = some (.str s))
    (h3 : env.base64Decode s = some b)
    (h4 : env.unmarshalCert b = some c)
    (h5 : env.verifyCert c env.now p.caPool = true) :
    p.authorizeToken env token audiences =
      (match jwt.verify
          (if c.Details.IsCA then VKey.ed25519 c.Details.PublicKey
           else VKey.x25519 c.Details.PublicKey) with
       | none => .error (.unauthorized "token is not valid: signature does not match")
       | some claims => claimsStage p env c claims audiences) := by
  rw [authorizeToken_reaches_sig p env token audiences jwt s b c h1 h2 h3 h4 h5]
  rfl

/-- Witness for C3 at the concrete fixture: the leaf certificate's key
bytes are read as an X25519 key. -/
theorem keyDerivation_spec_witness :
    provW.authorizeToken envW "tok" ["aud-sign"] =
      (match jwtW.verify
          (if certW.Details.IsCA then VKey.ed25519 certW.Details.PublicKey
           else VKey.x25519 certW.Details.PublicKey) with
       | none => .error (.unauthorized "token is not valid: signature does not match")
       | some claims => claimsStage provW envW certW claims ["aud-sign"]) :=
  keyDerivation_spec provW envW "tok" ["aud-sign"] jwtW "certb64" [1, 2] certW
    rfl rfl rfl rfl (by decide)

/-- The claim-validation stage accepts exactly when issuer, validity
window (one minute leeway), audience intersection and non-empty subject
all hold, and otherwise fails with some Unauthorized error. -/
theorem claimsStage_spec (p : Nebula) (env : Env) (c : NebulaCertificate)
    (claims : JwtPayload) (audiences : List String) :
    (claimsStage p env c claims audiences = .ok (c, claims) ↔
      (issuerOk claims p.Name = true ∧ timeOk claims env.now 60 = true ∧
       matchesAudience claims.Audience audiences = true ∧ claims.Subject ≠ "")) ∧
    (¬(issuerOk claims p.Name = true ∧ timeOk claims env.now 60 = true ∧
       matchesAudience claims.Audience audiences = true ∧ claims.Subject ≠ "") →
      ∃ msg, claimsStage p env c claims audiences = .error (.unauthorized msg)) := by
  unfold claimsStage validateWithLeeway
  by_cases hiss : issuerOk claims p.Name = true <;>
    by_cases htime : timeOk claims env.now 60 = true <;>
      by_cases haud : matchesAudience claims.Audience audiences = true <;>
        by_cases hsub : claims.Subject = "" <;>
          simp [hiss, htime, haud, hsub]

/-- C4: under successful parsing, certificate verification and signature
verification, `authorizeToken` returns the certificate and claims
exactly when the issuer equals the provisioner name, the reference time
lies in the validity window with one minute of leeway, some claim
audience is accepted, and the subject is non-empty; any violation yields
an Unauthorized error. -/
theorem claimsValidation_spec (p : Nebula) (env : Env) (token : String)
    (audiences : List String) (jwt : ParsedJWT) (s : String) (b : List Nat)
    (c : NebulaCertificate) (claims : JwtPayload)
    (h1 : env.parseSigned token = some jwt)
    (h2 : jwt.nbcHeader = some (.str s))
    (h3 : env.base64Decode s = some b)
    (h4 : env.unmarshalCert b = some c)
    (h5 : env.verifyCert c env.now p.caPool = true)
    (h6 : jwt.verify (deriveKey c) = some claims) :
    (p.authorizeToken env token audiences = .ok (c, claims) ↔
      (issuerOk claims p.Name = true ∧ timeOk claims env.now 60 = true ∧
       matchesAudience claims.Audience audiences = true ∧ claims.Subject ≠ "")) ∧
    (¬(issuerOk claims p.Name = true ∧ timeOk claims env.now 60 = true ∧
       matchesAudience claims.Audience audiences = true ∧ claims.Subject ≠ "") →
      ∃ msg, p.authorizeToken env token audiences = .error (.unauthorized msg)) := by
  rw [authorizeToken_reaches_claims p env token audiences jwt s b c claims
    h1 h2 h3 h4 h5 h6]
  exact claimsStage_spec p env c claims audiences

/-- Witness for C4 at the concrete fixture, where all four claim checks
hold and authorization succeeds. -/
theorem claimsValidation_spec_witness :
    provW.authorizeToken envW "tok" ["aud-sign"] = .ok (certW, payloadW) :=
  (claimsValidation_spec provW envW "tok" ["aud-sign"] jwtW "certb64" [1, 2]
      certW payloadW rfl rfl rfl rfl (by decide) rfl).1.mpr
    (by refine ⟨by decide, by decide, by decide, by decide⟩)

/-- C2: every token `AuthorizeSign` accepts yields exactly seven sign
options, in order: the rendered template options, the provisioner
extension with this provisioner's type and name, the duration limiter
defaulting to the policy's default TLS duration bounded by the mesh
certificate's window, the common-name validator on the claim subject,
the SAN validator over the mesh identity name and IPs, the default
public-key validator, and the validity validator for the policy's
min/max TLS duration. -/
theorem signPipeline_spec (p : Nebula) (env : Env) (token : String)
    (opts : List SignOption)
    (h : p.AuthorizeSign env token = .ok opts) :
    ∃ cert claims templateOpts,
      p.authorizeToken env token p.audiences.Sign = .ok (cert, claims) ∧
      TemplateOptions p.Options (buildX509TemplateData env token claims cert) =
        .ok templateOpts ∧
      opts = [templateOpts,
              .provisionerExtension TypeNebula p.Name "",
              .profileLimitDuration p.claimer.defaultTLSCertDuration
                cert.Details.NotBefore cert.Details.NotAfter,
              .commonNameValidator claims.Subject,
              .nebulaSANsValidatorOpt cert.Details.Name cert.Details.Ips,
              .defaultPublicKeyValidator,
              .validityValidator p.claimer.minTLSCertDuration
                p.claimer.maxTLSCertDuration] ∧
      opts.length = 7 := by
  unfold Nebula.AuthorizeSign at h
  cases ht : p.authorizeToken env token p.audiences.Sign with
  | error e => rw [ht] at h; cases h
  | ok pair =>
    obtain ⟨cert, claims⟩ := pair
    rw [ht] at h
    simp only at h
    cases hto : TemplateOptions p.Options (buildX509TemplateData env token claims cert) with
    | error e => rw [hto] at h; cases h
    | ok templateOpts =>
      rw [hto] at h
      simp only at h
      cases h
      exact ⟨cert, claims, templateOpts, rfl, hto, rfl, rfl⟩

/-- The seven sign options `AuthorizeSign` produces on the concrete
fixture. -/
def pipelineW : List SignOption :=
  [.templateOptions (buildX509TemplateData envW "tok" payloadW certW),
   .provisionerExtension TypeNebula "edge1" "",
   .profileLimitDuration 86400 0 1000,
   .commonNameValidator "node-7",
   .nebulaSANsValidatorOpt "node-7" [⟨⟨[10, 0, 0, 7]⟩, [255, 255, 255, 255]⟩],
   .defaultPublicKeyValidator,
   .validityValidator 300 86400]

/-- Witness for C2: the fixture's accepted token yields exactly the
seven-element pipeline. -/
theorem signPipeline_spec_witness :
    ∃ cert claims templateOpts,
      provW.authorizeToken envW "tok" provW.audiences.Sign = .ok (cert, claims) ∧
      TemplateOptions provW.Options (buildX509TemplateData envW "tok" claims cert) =
        .ok templateOpts ∧
      pipelineW = [templateOpts,
                   .provisionerExtension TypeNebula provW.Name "",
                   .profileLimitDuration provW.claimer.defaultTLSCertDuration
                     cert.Details.NotBefore cert.Details.NotAfter,
                   .commonNameValidator claims.Subject,
                   .nebulaSANsValidatorOpt cert.Details.Name cert.Details.Ips,
                   .defaultPublicKeyValidator,
                   .validityValidator provW.claimer.minTLSCertDuration
                     provW.claimer.maxTLSCertDuration] ∧
      pipelineW.length = 7 :=
  signPipeline_spec provW envW "tok" pipelineW (by decide)

/-- A payload identical to `payloadW` except that it carries a step
object whose SSH member is nil. -/
def payloadW2 : JwtPayload :=
  { payloadW with Step := some ⟨none⟩ }

/-- A parsed token delivering `payloadW2`. -/
def jwtW2 : ParsedJWT :=
  { nbcHeader := some (.str "certb64")
    verify := fun k => if k = .x25519 [7, 7] then some payloadW2 else none }

/-- The fixture environment with `jwtW2` behind the compact string
"tok". -/
def envW2 : Env :=
  { envW with parseSigned := fun s => if s = "tok" then some jwtW2 else none }

/-- C1: refuted on the code as written. For a token that passes shared
token authorization (SSH enabled) but whose decoded claims carry no
SSH sub-claims — whether `Step` is nil or `Step` is present with a nil
`SSH` member — `AuthorizeSSHSign` does not build the default key-id /
principals pipeline: the condition `claims.Step != nil ||
claims.Step.SSH != nil` (and, in the second shape, the later `*opts`)
dereferences a nil pointer and the call panics. The spec itself flags
the `||` as a latent bug whose intent is a plain nil-check, so this is
recorded as a bug in the code rather than a spec correction. -/
theorem sshSign_nil_step_panics :
    provW.AuthorizeSSHSign envW "tok" = .panicked nilDerefMsg ∧
    provW.AuthorizeSSHSign envW2 "tok" = .panicked nilDerefMsg :=
  ⟨by decide, by decide⟩

end NebulaProv
